import Mathlib

set_option maxHeartbeats 1000000

/-! Verification development for the zgrab2 protocol-scanner core: the SMB
scan with its reconnect-and-retry orchestration (`modules/smb/scanner.go`),
the Telnet banner scan (`modules/telnet/scanner.go`), and the MSSQL PRELOGIN
scan (`modules/mssql/scanner.go`).  Pure control flow present in the sources
is embedded directly; library routines the sources call but whose code is
not part of the excerpt (the SMB negotiator `GetSMBLog`, the Telnet banner
reader `GetTelnetBanner` and `TelnetLog.getResult`, the MSSQL
`Connection.Handshake`, and the framework status classifier
`TryGetScanStatus`) are modelled from the specification, as marked on each
such definition. -/

/-- Scan statuses of the zgrab2 framework, as used by the three scanners. -/
inductive ScanStatus where
  | SCAN_SUCCESS
  | SCAN_CONNECTION_REFUSED
  | SCAN_CONNECTION_TIMEOUT
  | SCAN_IO_TIMEOUT
  | SCAN_PROTOCOL_ERROR
  | SCAN_APPLICATION_ERROR
  | SCAN_INVALID_INPUTS
  | SCAN_UNKNOWN_ERROR
deriving DecidableEq, Repr

/-- Errors a scan can produce: dial-level failures, I/O and protocol
failures, and the two MSSQL sentinel errors `ErrNoServerEncryption` and
`ErrServerRequiresEncryption`. -/
inductive ScanError where
  | connRefused
  | connTimeout
  | ioTimeout
  | protocolError
  | tlsError
  | truncatedCommand
  | ioError
  | l4DialerRequired
  | noServerEncryption
  | serverRequiresEncryption
deriving DecidableEq, Repr

/-- Modelled from the spec: the framework's status classifier
`zgrab2.TryGetScanStatus` is not under `src/`; per the spec (section 4.5 and
section 7) it maps a raw error to connection-failed, timeout,
protocol-error, invalid-input or unknown-error.  The two MSSQL sentinels are
not recognized here; the MSSQL scanner classifies them itself. -/
def tryGetScanStatus : ScanError → ScanStatus
  | .connRefused => .SCAN_CONNECTION_REFUSED
  | .connTimeout => .SCAN_CONNECTION_TIMEOUT
  | .ioTimeout => .SCAN_IO_TIMEOUT
  | .protocolError => .SCAN_PROTOCOL_ERROR
  | .tlsError => .SCAN_PROTOCOL_ERROR
  | .truncatedCommand => .SCAN_PROTOCOL_ERROR
  | .ioError => .SCAN_UNKNOWN_ERROR
  | .l4DialerRequired => .SCAN_INVALID_INPUTS
  | .noServerEncryption => .SCAN_UNKNOWN_ERROR
  | .serverRequiresEncryption => .SCAN_UNKNOWN_ERROR

/-- The (status, result, error) triple every scanner's `Scan` returns. -/
structure ScanOutcome (α : Type) where
  status : ScanStatus
  result : Option α
  err : Option ScanError
deriving DecidableEq, Repr

/-- Modelled from the spec: the SMB negotiation log produced by
`lib/smb/smb.GetSMBLog` (not under `src/`); the spec (section 3) lists
dialect fields, an SMBv1-support flag and a two-attempt marker. -/
structure SMBLog where
  supportV1 : Bool := false
  dialectRevision : Nat := 0
  triedTwice : Bool := false
deriving DecidableEq, Repr

/-- Observable events of one SMB scan: a successful dial (by attempt
index), a close of a connection, and a negotiator invocation with its
arguments.  Per the spec (section 4.4) the diagnostics flag forced true on
the retry is the verbose flag; it is the third Boolean argument at the two
`GetSMBLog` call sites, while the configured verbose flag is passed
unchanged as the fourth. -/
inductive SMBEvent where
  | dialEv (attempt : Nat)
  | closeEv (conn : Nat)
  | negotiateEv (conn : Nat) (setupSession verboseForced verbose : Bool)
deriving DecidableEq, Repr

/-- Recognizer for negotiator-invocation events. -/
def SMBEvent.isNegotiate : SMBEvent → Bool
  | .negotiateEv _ _ _ _ => true
  | _ => false

/-- Modelled from the spec: the environment one SMB scan runs against.
`dial k` is the outcome of the k-th dial of the target (the returned `Nat`
identifies the opened connection); `negotiate k conn ss vf vb` is the
(log, error) pair the k-th call of the negotiator `GetSMBLog` produces on
connection `conn` with setup-session flag `ss`, forced-diagnostics flag
`vf` and configured verbose flag `vb`.  `GetSMBLog` itself is not under
`src/`. -/
structure SMBEnv where
  dial : Nat → Except ScanError Nat
  negotiate : Nat → Nat → Bool → Bool → Bool → Option SMBLog × Option ScanError

/-- Classification of a negotiator attempt's (log, error) pair into the
returned triple, as the SMB `Scan` does on its return paths. -/
def smbClassify (p : Option SMBLog × Option ScanError) : ScanOutcome SMBLog :=
  match p with
  | (r, none) => ⟨.SCAN_SUCCESS, r, none⟩
  | (r, some e) => ⟨tryGetScanStatus e, r, some e⟩

/-- The SMB `Scan` control flow of `modules/smb/scanner.go` (lines
120-148): dial; negotiate with the diagnostics flag false; on an error with
a nil log, close the connection, dial anew and negotiate once more with the
diagnostics flag forced true; on an error with a non-nil log return it
directly.  Deferred closes run at exit in LIFO order; the explicit close
before the redial is also recorded, exactly as the code performs it. -/
def smbScan (env : SMBEnv) (ss vb : Bool) : ScanOutcome SMBLog × List SMBEvent :=
  match env.dial 0 with
  | .error e => (⟨tryGetScanStatus e, none, some e⟩, [])
  | .ok conn =>
    match env.negotiate 0 conn ss false vb with
    | (result, none) =>
      (⟨.SCAN_SUCCESS, result, none⟩,
       [.dialEv 0, .negotiateEv conn ss false vb, .closeEv conn])
    | (some r, some e) =>
      (⟨tryGetScanStatus e, some r, some e⟩,
       [.dialEv 0, .negotiateEv conn ss false vb, .closeEv conn])
    | (none, some _e) =>
      match env.dial 1 with
      | .error e2 =>
        (⟨tryGetScanStatus e2, none, some e2⟩,
         [.dialEv 0, .negotiateEv conn ss false vb, .closeEv conn, .closeEv conn])
      | .ok conn2 =>
        match env.negotiate 1 conn2 ss true vb with
        | (result2, none) =>
          (⟨.SCAN_SUCCESS, result2, none⟩,
           [.dialEv 0, .negotiateEv conn ss false vb, .closeEv conn,
            .dialEv 1, .negotiateEv conn2 ss true vb, .closeEv conn2, .closeEv conn])
        | (result2, some e2) =>
          (⟨tryGetScanStatus e2, result2, some e2⟩,
           [.dialEv 0, .negotiateEv conn ss false vb, .closeEv conn,
            .dialEv 1, .negotiateEv conn2 ss true vb, .closeEv conn2, .closeEv conn])

/-- Number of close events of connection `c` in a trace. -/
def smbCloseCount (c : Nat) : List SMBEvent → Nat
  | [] => 0
  | SMBEvent.closeEv c2 :: rest => (if c2 = c then 1 else 0) + smbCloseCount c rest
  | _ :: rest => smbCloseCount c rest

/-- C1: for every SMB scan in which the first negotiator call fails with a
nil log, the scan closes the failed connection, dials a brand-new one and
calls the negotiator exactly once more — exactly two invocations in total —
with the diagnostics (verbose) flag forced true on the retry, and the
returned (status, result, error) triple reflects the second attempt only. -/
theorem smb_retry_invokes_negotiator_twice_C1 (env : SMBEnv) (ss vb : Bool)
    (c0 c1 : Nat) (e1 : ScanError)
    (hd0 : env.dial 0 = Except.ok c0)
    (hn0 : env.negotiate 0 c0 ss false vb = (none, some e1))
    (hd1 : env.dial 1 = Except.ok c1) :
    (smbScan env ss vb).2
      = [SMBEvent.dialEv 0, SMBEvent.negotiateEv c0 ss false vb, SMBEvent.closeEv c0,
         SMBEvent.dialEv 1, SMBEvent.negotiateEv c1 ss true vb,
         SMBEvent.closeEv c1, SMBEvent.closeEv c0]
    ∧ (smbScan env ss vb).2.filter SMBEvent.isNegotiate
      = [SMBEvent.negotiateEv c0 ss false vb, SMBEvent.negotiateEv c1 ss true vb]
    ∧ (smbScan env ss vb).1 = smbClassify (env.negotiate 1 c1 ss true vb) := by
  rcases hn1 : env.negotiate 1 c1 ss true vb with ⟨r2, e2⟩
  cases e2 <;>
    simp [smbScan, smbClassify, hd0, hn0, hd1, hn1, SMBEvent.isNegotiate,
      List.filter]

/-- Witness for C1 at a concrete environment: first negotiation fails with
no log, the redial succeeds, and the retry succeeds. -/
theorem smb_retry_invokes_negotiator_twice_C1_witness :
    (SMBEnv.mk (fun k => Except.ok k)
        (fun i _ _ _ _ => if i = 0 then (none, some ScanError.ioError)
          else (some {}, none))).dial 0 = Except.ok 0
    ∧ (SMBEnv.mk (fun k => Except.ok k)
        (fun i _ _ _ _ => if i = 0 then (none, some ScanError.ioError)
          else (some {}, none))).negotiate 0 0 false false false
        = (none, some ScanError.ioError)
    ∧ (SMBEnv.mk (fun k => Except.ok k)
        (fun i _ _ _ _ => if i = 0 then (none, some ScanError.ioError)
          else (some {}, none))).dial 1 = Except.ok 1
    ∧ ((smbScan (SMBEnv.mk (fun k => Except.ok k)
        (fun i _ _ _ _ => if i = 0 then (none, some ScanError.ioError)
          else (some {}, none))) false false).2.filter SMBEvent.isNegotiate
        = [SMBEvent.negotiateEv 0 false false false,
           SMBEvent.negotiateEv 1 false true false]) :=
  ⟨rfl, rfl, rfl,
    (smb_retry_invokes_negotiator_twice_C1 _ false false 0 1 ScanError.ioError
      rfl rfl rfl).2.1⟩

/-- C6: for every SMB scan in which the first negotiator call fails but
produces a non-nil (partial) log, no retry occurs: the negotiator is
invoked exactly once and that partial log together with the error is
returned directly. -/
theorem smb_no_retry_on_partial_log_C6 (env : SMBEnv) (ss vb : Bool)
    (c0 : Nat) (r1 : SMBLog) (e1 : ScanError)
    (hd0 : env.dial 0 = Except.ok c0)
    (hn0 : env.negotiate 0 c0 ss false vb = (some r1, some e1)) :
    smbScan env ss vb
      = (⟨tryGetScanStatus e1, some r1, some e1⟩,
         [SMBEvent.dialEv 0, SMBEvent.negotiateEv c0 ss false vb, SMBEvent.closeEv c0])
    ∧ (smbScan env ss vb).2.filter SMBEvent.isNegotiate
      = [SMBEvent.negotiateEv c0 ss false vb] := by
  simp [smbScan, hd0, hn0, SMBEvent.isNegotiate, List.filter]

/-- Witness for C6 at a concrete environment: the single negotiation fails
after producing a partial log, and exactly one negotiator event occurs. -/
theorem smb_no_retry_on_partial_log_C6_witness :
    (SMBEnv.mk (fun k => Except.ok k)
        (fun _ _ _ _ _ => (some ⟨true, 0x0202, false⟩, some ScanError.ioTimeout))).dial 0
      = Except.ok 0
    ∧ (SMBEnv.mk (fun k => Except.ok k)
        (fun _ _ _ _ _ => (some ⟨true, 0x0202, false⟩, some ScanError.ioTimeout))).negotiate
        0 0 true false false = (some ⟨true, 0x0202, false⟩, some ScanError.ioTimeout)
    ∧ smbScan (SMBEnv.mk (fun k => Except.ok k)
        (fun _ _ _ _ _ => (some ⟨true, 0x0202, false⟩, some ScanError.ioTimeout)))
        true false
      = (⟨ScanStatus.SCAN_IO_TIMEOUT, some ⟨true, 0x0202, false⟩,
          some ScanError.ioTimeout⟩,
         [SMBEvent.dialEv 0, SMBEvent.negotiateEv 0 true false false,
          SMBEvent.closeEv 0]) :=
  ⟨rfl, rfl,
    (smb_no_retry_on_partial_log_C6 _ true false 0 ⟨true, 0x0202, false⟩
      ScanError.ioTimeout rfl rfl).1⟩

/-- Modelled from the spec: the Telnet scan log (section 3): banner bytes
plus the negotiated option codes by direction (will/wont/do/dont).  The
`TelnetLog` type itself is not under `src/`. -/
structure TelnetLog where
  banner : List Nat := []
  willOpts : List Nat := []
  wontOpts : List Nat := []
  doOpts : List Nat := []
  dontOpts : List Nat := []
deriving DecidableEq, Repr

/-- Modelled from the spec: recording one negotiation command
(WILL = 0xFB, WONT = 0xFC, DO = 0xFD, DONT = 0xFE, per section 6) with its
option code into the log. -/
def recordOption (log : TelnetLog) (cmd opt : Nat) : TelnetLog :=
  if cmd = 0xFB then { log with willOpts := log.willOpts ++ [opt] }
  else if cmd = 0xFC then { log with wontOpts := log.wontOpts ++ [opt] }
  else if cmd = 0xFD then { log with doOpts := log.doOpts ++ [opt] }
  else if cmd = 0xFE then { log with dontOpts := log.dontOpts ++ [opt] }
  else log

/-- Modelled from the spec: the banner-reading loop of `GetTelnetBanner`
(section 4.2, not under `src/`).  It consumes the inbound stream up to
`maxB` total banner bytes; the escape byte IAC (0xFF) introduces a
command byte and an option code, which are recorded rather than taken as
banner content; it stops at the byte ceiling or at EOF; a truncated
control sequence at end-of-stream is a read error. -/
def readBannerLoop (maxB : Nat) : List Nat → TelnetLog → TelnetLog × Option ScanError
  | [], log => (log, none)
  | b :: rest, log =>
    if maxB ≤ log.banner.length then (log, none)
    else if b = 0xFF then
      match rest with
      | cmd :: opt :: rest2 => readBannerLoop maxB rest2 (recordOption log cmd opt)
      | _ => (log, some ScanError.truncatedCommand)
    else readBannerLoop maxB rest { log with banner := log.banner ++ [b] }

/-- Modelled from the spec: `GetTelnetBanner` run on an inbound stream with
the configured maximum read size, starting from an empty log. -/
def getTelnetBanner (stream : List Nat) (maxB : Nat) : TelnetLog × Option ScanError :=
  readBannerLoop maxB stream {}

/-- Modelled from the spec: `TelnetLog.getResult` (not under `src/`); per
sections 4.2 and 4.5 a result is attached on failure only when partial data
was produced, so the reduced view is the log itself when it carries any
data (banner bytes or a negotiated option) and nil when it is empty. -/
def TelnetLog.getResult (log : TelnetLog) : Option TelnetLog :=
  if log.banner = [] ∧ log.willOpts = [] ∧ log.wontOpts = []
      ∧ log.doOpts = [] ∧ log.dontOpts = [] then none
  else some log

/-- Configuration of the Telnet scanner (`modules/telnet/scanner.go` Flags):
maximum banner read size, the force-banner flag, and the verbose flag. -/
structure TelnetFlags where
  maxReadSize : Nat := 65536
  banner : Bool := false
  verbose : Bool := false
deriving DecidableEq, Repr

/-- Observable connection events of one Telnet scan. -/
inductive TelnetEvent where
  | dialEv
  | closeEv
deriving DecidableEq, Repr

/-- The Telnet `Scan` control flow of `modules/telnet/scanner.go` (lines
114-129): dial; grab the banner; on a banner-grab error return the full log
when the force-banner flag is set and the banner is non-empty, otherwise
the reduced view `getResult`; on success return the full log.  The deferred
close runs on every exit path after the dial succeeded. -/
def telnetScan (dial : Except ScanError Unit) (stream : List Nat)
    (flags : TelnetFlags) : ScanOutcome TelnetLog × List TelnetEvent :=
  match dial with
  | .error e => (⟨tryGetScanStatus e, none, some e⟩, [])
  | .ok _ =>
    match getTelnetBanner stream flags.maxReadSize with
    | (log, some e) =>
      if flags.banner ∧ 0 < log.banner.length then
        (⟨tryGetScanStatus e, some log, some e⟩, [.dialEv, .closeEv])
      else
        (⟨tryGetScanStatus e, log.getResult, some e⟩, [.dialEv, .closeEv])
    | (log, none) => (⟨.SCAN_SUCCESS, some log, none⟩, [.dialEv, .closeEv])

/-- Helper for C8: on a stream of plain banner bytes (no IAC) that is long
enough, the loop fills the banner exactly to the ceiling and reports no
error. -/
theorem readBannerLoop_plain (maxB : Nat) :
    ∀ (stream : List Nat) (log : TelnetLog),
      (∀ b ∈ stream, b ≠ 0xFF) → log.banner.length ≤ maxB →
      maxB ≤ log.banner.length + stream.length →
      (readBannerLoop maxB stream log).1.banner.length = maxB
      ∧ (readBannerLoop maxB stream log).2 = none := by
  intro stream
  induction stream with
  | nil =>
    intro log _ hle hge
    have h1 : readBannerLoop maxB [] log = (log, none) := by rw [readBannerLoop]
    rw [h1]
    simp only [List.length_nil, Nat.add_zero] at hge
    exact ⟨le_antisymm hle hge, rfl⟩
  | cons b rest ih =>
    intro log hplain hle hge
    have hb : b ≠ 0xFF := hplain b (List.mem_cons_self b rest)
    rw [readBannerLoop.eq_def]
    by_cases hfull : maxB ≤ log.banner.length
    · simp only [if_pos hfull]
      exact ⟨le_antisymm hle hfull, trivial⟩
    · simp only [if_neg hfull, if_neg hb]
      exact ih { log with banner := log.banner ++ [b] }
        (fun x hx => hplain x (List.mem_cons_of_mem b hx))
        (by simp only [List.length_append, List.length_singleton]; omega)
        (by simp only [List.length_cons] at hge
            simp only [List.length_append, List.length_singleton]; omega)

/-- C8: for every Telnet banner read of a stream of N plain banner bytes
followed by EOF with N strictly greater than the configured max-read-size
M, the returned banner has length exactly M and no error is raised solely
because of the truncation. -/
theorem telnet_truncation_C8 (stream : List Nat) (maxB : Nat)
    (hplain : ∀ b ∈ stream, b ≠ 0xFF) (hlen : maxB < stream.length) :
    (getTelnetBanner stream maxB).1.banner.length = maxB
    ∧ (getTelnetBanner stream maxB).2 = none := by
  have := readBannerLoop_plain maxB stream {} hplain (by simp) (by simp; omega)
  simpa [getTelnetBanner] using this

/-- Witness for C8: a three-byte plain banner read with max-read-size two
yields a banner of length exactly two and no error. -/
theorem telnet_truncation_C8_witness :
    (∀ b ∈ [72, 105, 33], b ≠ 0xFF) ∧ 2 < [72, 105, 33].length
    ∧ (getTelnetBanner [72, 105, 33] 2).1.banner.length = 2
    ∧ (getTelnetBanner [72, 105, 33] 2).2 = none :=
  ⟨by decide, by decide, telnet_truncation_C8 [72, 105, 33] 2 (by decide) (by decide)⟩

/-- C10 counterexample: a Telnet scan whose banner grab fails immediately
(the stream is a lone IAC byte, a truncated control sequence) returns the
error together with a nil result — the claim that a non-nil result is
always attached alongside the error does not hold. -/
theorem telnet_error_nil_result_C10_cex :
    (telnetScan (Except.ok ()) [0xFF]
        { maxReadSize := 65536, banner := false, verbose := false }).1.result = none
    ∧ (telnetScan (Except.ok ()) [0xFF]
        { maxReadSize := 65536, banner := false, verbose := false }).1.err
      = some ScanError.truncatedCommand := by
  constructor <;> rfl

/-- C10 amended: for every Telnet scan in which the banner grab returns an
error, Scan attaches the full TelnetLog exactly when the force-banner flag
is set and the accumulated banner is non-empty, and otherwise attaches the
reduced view `getResult` — which is the log itself when it carries any data
and nil when the log is empty (so the attached result can be nil). -/
theorem telnet_error_result_attachment_C10 (stream : List Nat)
    (flags : TelnetFlags) (log : TelnetLog) (e : ScanError)
    (hread : getTelnetBanner stream flags.maxReadSize = (log, some e)) :
    (telnetScan (Except.ok ()) stream flags).1.result
      = (if flags.banner ∧ 0 < log.banner.length then some log else log.getResult)
    ∧ (telnetScan (Except.ok ()) stream flags).1.err = some e
    ∧ (log.getResult = none
        ↔ (log.banner = [] ∧ log.willOpts = [] ∧ log.wontOpts = []
            ∧ log.doOpts = [] ∧ log.dontOpts = [])) := by
  refine ⟨?_, ?_, ?_⟩
  · by_cases hcond : flags.banner ∧ 0 < log.banner.length <;>
      simp [telnetScan, hread, hcond]
  · by_cases hcond : flags.banner ∧ 0 < log.banner.length <;>
      simp [telnetScan, hread, hcond]
  · by_cases hempty : log.banner = [] ∧ log.willOpts = [] ∧ log.wontOpts = []
        ∧ log.doOpts = [] ∧ log.dontOpts = [] <;>
      simp [TelnetLog.getResult, hempty]

/-- Witness for the amended C10: a one-byte banner followed by a truncated
control sequence fails with the banner preserved; with the force-banner
flag unset the attached result is the reduced view, here the full log since
the banner is non-empty. -/
theorem telnet_error_result_attachment_C10_witness :
    getTelnetBanner [65, 0xFF] 65536
      = ({ banner := [65] }, some ScanError.truncatedCommand)
    ∧ (telnetScan (Except.ok ()) [65, 0xFF]
        { maxReadSize := 65536, banner := false, verbose := false }).1.result
      = (if (false : Bool) ∧ 0 < ({ banner := [65] } : TelnetLog).banner.length
          then some ({ banner := [65] } : TelnetLog)
          else ({ banner := [65] } : TelnetLog).getResult)
    ∧ (telnetScan (Except.ok ()) [65, 0xFF]
        { maxReadSize := 65536, banner := false, verbose := false }).1.err
      = some ScanError.truncatedCommand :=
  ⟨by rfl,
    (telnet_error_result_attachment_C10 [65, 0xFF]
      { maxReadSize := 65536, banner := false, verbose := false }
      { banner := [65] } ScanError.truncatedCommand (by rfl)).1,
    (telnet_error_result_attachment_C10 [65, 0xFF]
      { maxReadSize := 65536, banner := false, verbose := false }
      { banner := [65] } ScanError.truncatedCommand (by rfl)).2.1⟩

/-- Encryption modes of the MSSQL PRELOGIN negotiation, both as the client
request and as the server response (spec section 3). -/
inductive EncryptMode where
  | off
  | on
  | notSupported
  | required
  | clientForced
  | unknown
deriving DecidableEq, Repr

/-- PRELOGIN option tokens used by the scanner (VERSION, ENCRYPTION,
INSTANCE). -/
def PreloginVersion : Nat := 0

/-- ENCRYPTION option token. -/
def PreloginEncryption : Nat := 1

/-- INSTANCE option token. -/
def PreloginInstance : Nat := 2

/-- Modelled from the spec: `PreloginOptions` (the ordered mapping from an
option token to its raw byte value decoded from the PRELOGIN response,
spec section 3); its Go definition is not under `src/`. -/
structure PreloginOptions where
  entries : List (Nat × List Nat)
deriving DecidableEq, Repr

/-- Lookup of the first entry with the given token, as the Go map access
`(*sql.PreloginOptions)[token]` observes it. -/
def findEntry : List (Nat × List Nat) → Nat → Option (List Nat)
  | [], _ => none
  | (t, v) :: rest, tok => if t = tok then some v else findEntry rest tok

/-- Lookup of an option's raw bytes by token. -/
def PreloginOptions.find (opts : PreloginOptions) (tok : Nat) : Option (List Nat) :=
  findEntry opts.entries tok

/-- Modelled from the spec: the decoded VERSION option (6 bytes: major,
minor, build high/low, sub-build of 2 bytes; spec section 6). -/
structure ServerVersion where
  major : Nat
  minor : Nat
  buildNumber : Nat
  subBuild : Nat
deriving DecidableEq, Repr

/-- Modelled from the spec: `PreloginOptions.GetVersion` (not under
`src/`): decode the 6-byte VERSION option value if present. -/
def PreloginOptions.getVersion (opts : PreloginOptions) : Option ServerVersion :=
  match opts.find PreloginVersion with
  | some (a :: b :: c :: d :: e :: f :: _) =>
    some ⟨a, b, c * 256 + d, e * 256 + f⟩
  | _ => none

/-- Modelled from the spec: the rendering of a decoded server version, as
in the end-to-end scenario where VERSION bytes for 12.0.2000 render as
"12.0.2000.0". -/
def ServerVersion.versionString (v : ServerVersion) : String :=
  toString v.major ++ "." ++ toString v.minor ++ "." ++ toString v.buildNumber
    ++ "." ++ toString v.subBuild

/-- The cutset trimmed off both ends of the INSTANCE value by the scanner:
NUL, CR and LF (`strings.Trim(string(name), "\x00\r\n")`, scanner.go line
176). -/
def instanceCutset : List Nat := [0x00, 0x0D, 0x0A]

/-- Trim every byte of `cut` from both ends of `s`, as Go's
`strings.Trim` does for a cutset of single-byte characters. -/
def trimCutset (cut : List Nat) (s : List Nat) : List Nat :=
  ((s.dropWhile (· ∈ cut)).reverse.dropWhile (· ∈ cut)).reverse

/-- Modelled from the spec: the shared TLS handshake log exposed by the
transport dialer (spec section 4.1); only its completion flag is modelled
here. -/
structure TLSLog where
  completed : Bool
deriving DecidableEq, Repr

/-- What the MSSQL `Scan` observes on its `Connection` after `Handshake`
returns: the returned encryption mode and error, and the connection fields
`tlsConn` (its log), `PreloginOptions` and `readValidTDSPacket`. -/
structure HandshakeOutcome where
  encryptMode : EncryptMode := .unknown
  handshakeErr : Option ScanError := none
  tlsLog : Option TLSLog := none
  preloginOptions : Option PreloginOptions := none
  readValidTDSPacket : Bool := false
deriving DecidableEq, Repr

/-- MSSQL scan results (`ScanResults` of `modules/mssql/scanner.go` lines
29-48): version string, nullable instance name, debug prelogin options,
negotiated encryption mode and the TLS log. -/
structure ScanResults where
  version : String := ""
  instanceName : Option (List Nat) := none
  preloginOptions : Option PreloginOptions := none
  encryptMode : Option EncryptMode := none
  tlsLog : Option TLSLog := none
deriving DecidableEq, Repr

/-- Observable connection events of one MSSQL scan: a dial attempt and a
close of the opened connection. -/
inductive MSSQLEvent where
  | dialAttemptEv
  | closeEv
deriving DecidableEq, Repr

/-- The MSSQL `Scan` control flow of `modules/mssql/scanner.go` (lines
142-203), taking the handshake's outcome as input: require the lower-layer
dialer, dial, run the handshake, populate the results (encrypt mode and TLS
log always; version and instance name when prelogin options were decoded),
and on a handshake error attach a nil result exactly when no prelogin
options exist and no valid TDS packet was read, classifying the two
sentinel errors as application errors.  The deferred close runs on every
exit path after the dial succeeded. -/
def mssqlScanCore (l4Dialer : Option (Except ScanError Unit))
    (h : HandshakeOutcome) : ScanOutcome ScanResults × List MSSQLEvent :=
  match l4Dialer with
  | none => (⟨.SCAN_INVALID_INPUTS, none, some .l4DialerRequired⟩, [])
  | some (.error e) => (⟨tryGetScanStatus e, none, some e⟩, [.dialAttemptEv])
  | some (.ok _) =>
    let result0 : ScanResults := { encryptMode := some h.encryptMode, tlsLog := h.tlsLog }
    let result : ScanResults :=
      match h.preloginOptions with
      | none => result0
      | some opts =>
        let withOpts : ScanResults :=
          { result0 with
            preloginOptions := some opts,
            version := (match opts.getVersion with
              | some v => v.versionString
              | none => result0.version) }
        match opts.find PreloginInstance with
        | some name =>
          { withOpts with instanceName := some (trimCutset instanceCutset name) }
        | none => { withOpts with instanceName := none }
    match h.handshakeErr with
    | some e =>
      let attached : Option ScanResults :=
        if h.preloginOptions = none ∧ h.readValidTDSPacket = false then none
        else some result
      match e with
      | .noServerEncryption =>
        (⟨.SCAN_APPLICATION_ERROR, attached, some e⟩, [.dialAttemptEv, .closeEv])
      | .serverRequiresEncryption =>
        (⟨.SCAN_APPLICATION_ERROR, attached, some e⟩, [.dialAttemptEv, .closeEv])
      | _ =>
        (⟨tryGetScanStatus e, attached, some e⟩, [.dialAttemptEv, .closeEv])
    | none => (⟨.SCAN_SUCCESS, some result, none⟩, [.dialAttemptEv, .closeEv])

/-- Modelled from the spec: the server's behavior observed during the
handshake — a response that is not a valid TDS header, a valid TDS header
whose option table fails to decode, or a decoded option table. -/
inductive ServerResponse where
  | notTDS
  | badOptions
  | options (opts : PreloginOptions)
deriving DecidableEq, Repr

/-- Modelled from the spec: the server's declared encryption mode, read
from the first byte of the ENCRYPTION option. -/
def decodeServerMode (opts : PreloginOptions) : EncryptMode :=
  match opts.find PreloginEncryption with
  | some (0 :: _) => .off
  | some (1 :: _) => .on
  | some (2 :: _) => .notSupported
  | some (3 :: _) => .required
  | _ => .unknown

/-- Phases of the MSSQL handshake that touch the wire. -/
inductive HsPhase where
  | sendPrelogin
  | readResponse
  | tlsSend
deriving DecidableEq, Repr

/-- Modelled from the spec: `Connection.Handshake` (spec section 4.3, not
under `src/`).  Send PRELOGIN; read and decode the response (a non-TDS
response leaves `readValidTDSPacket` false, a decode failure after a valid
header leaves it true); if the server's ENCRYPTION value is NOT_SUPPORTED
skip TLS entirely — surfacing `ErrNoServerEncryption` when the client
requested ON — and otherwise tunnel a TLS handshake through TDS, surfacing
`ErrServerRequiresEncryption` when it fails under a server mode of
REQUIRED or CLIENT_FORCED.  The encrypt mode yielded is the server's
stated value once the response was decoded. -/
def handshake (clientMode : EncryptMode) (resp : ServerResponse) (tlsOk : Bool) :
    HandshakeOutcome × List HsPhase :=
  match resp with
  | .notTDS =>
    ({ encryptMode := .unknown, handshakeErr := some .protocolError, tlsLog := none,
       preloginOptions := none, readValidTDSPacket := false },
     [.sendPrelogin, .readResponse])
  | .badOptions =>
    ({ encryptMode := .unknown, handshakeErr := some .protocolError, tlsLog := none,
       preloginOptions := none, readValidTDSPacket := true },
     [.sendPrelogin, .readResponse])
  | .options opts =>
    let serverMode := decodeServerMode opts
    if serverMode = .notSupported then
      ({ encryptMode := serverMode,
         handshakeErr := if clientMode = .on then some .noServerEncryption else none,
         tlsLog := none, preloginOptions := some opts, readValidTDSPacket := true },
       [.sendPrelogin, .readResponse])
    else if tlsOk then
      ({ encryptMode := serverMode, handshakeErr := none,
         tlsLog := some ⟨true⟩, preloginOptions := some opts,
         readValidTDSPacket := true },
       [.sendPrelogin, .readResponse, .tlsSend])
    else
      ({ encryptMode := serverMode,
         handshakeErr := if serverMode = .required ∨ serverMode = .clientForced
           then some .serverRequiresEncryption else some .tlsError,
         tlsLog := some ⟨false⟩, preloginOptions := some opts,
         readValidTDSPacket := true },
       [.sendPrelogin, .readResponse, .tlsSend])

/-- C9: for every MSSQL scan invoked with a dialer group whose required
lower-layer dialer is absent, Scan returns the invalid-input status with a
nil result and a non-nil error, and the trace is empty — no dial is
attempted. -/
theorem mssql_missing_l4_dialer_C9 (h : HandshakeOutcome) :
    mssqlScanCore none h
      = (⟨ScanStatus.SCAN_INVALID_INPUTS, none, some ScanError.l4DialerRequired⟩,
         []) := by
  rfl

/-- C2: for every MSSQL scan whose handshake returns an error, the attached
result is nil if and only if no prelogin options were decoded and no
inbound packet parsed as a structurally valid TDS header. -/
theorem mssql_nil_result_iff_no_tds_C2 (h : HandshakeOutcome) (e : ScanError)
    (he : h.handshakeErr = some e) :
    ((mssqlScanCore (some (Except.ok ())) h).1.result = none
      ↔ (h.preloginOptions = none ∧ h.readValidTDSPacket = false)) := by
  cases e <;>
    by_cases hcond : h.preloginOptions = none ∧ h.readValidTDSPacket = false <;>
    simp [mssqlScanCore, he, hcond]

/-- Witness for C2: a handshake failure with no prelogin options and no
valid TDS packet read yields a nil result. -/
theorem mssql_nil_result_iff_no_tds_C2_witness :
    ({ handshakeErr := some ScanError.protocolError } : HandshakeOutcome).handshakeErr
      = some ScanError.protocolError
    ∧ ((mssqlScanCore (some (Except.ok ()))
          { handshakeErr := some ScanError.protocolError }).1.result = none
        ↔ (({ handshakeErr := some ScanError.protocolError }
              : HandshakeOutcome).preloginOptions = none
          ∧ ({ handshakeErr := some ScanError.protocolError }
              : HandshakeOutcome).readValidTDSPacket = false)) :=
  ⟨rfl, mssql_nil_result_iff_no_tds_C2 _ _ rfl⟩

/-- Helper: once prelogin options were decoded, the scan attaches — on
every return path — the result populated from them. -/
theorem mssqlScanCore_result_of_prelogin (h : HandshakeOutcome)
    (opts : PreloginOptions) (hopts : h.preloginOptions = some opts) :
    (mssqlScanCore (some (Except.ok ())) h).1.result
      = some { version := (match opts.getVersion with
                 | some v => v.versionString
                 | none => ""),
               instanceName := (match opts.find PreloginInstance with
                 | some name => some (trimCutset instanceCutset name)
                 | none => none),
               preloginOptions := some opts,
               encryptMode := some h.encryptMode,
               tlsLog := h.tlsLog } := by
  rcases he : h.handshakeErr with _ | e
  · rcases hfind : opts.find PreloginInstance with _ | v <;>
      rcases hver : opts.getVersion with _ | sv <;>
      simp [mssqlScanCore, hopts, he, hfind, hver]
  · cases e <;>
      rcases hfind : opts.find PreloginInstance with _ | v <;>
      rcases hver : opts.getVersion with _ | sv <;>
      simp [mssqlScanCore, hopts, he, hfind, hver]

/-- C7: for every MSSQL scan that decodes prelogin options, the attached
result's InstanceName is non-nil exactly when the PRELOGIN response
contains an INSTANCE option, and when present its value is the raw option
bytes with leading and trailing NUL, CR and LF characters trimmed. -/
theorem mssql_instance_name_C7 (h : HandshakeOutcome) (opts : PreloginOptions)
    (hopts : h.preloginOptions = some opts) :
    ∃ r, (mssqlScanCore (some (Except.ok ())) h).1.result = some r
      ∧ (r.instanceName.isSome ↔ (opts.find PreloginInstance).isSome)
      ∧ (∀ v, opts.find PreloginInstance = some v →
          r.instanceName = some (trimCutset instanceCutset v)) := by
  refine ⟨_, mssqlScanCore_result_of_prelogin h opts hopts, ?_, ?_⟩
  · rcases hfind : opts.find PreloginInstance with _ | v <;> simp [hfind]
  · intro v hv
    simp [hv]

/-- Witness for C7: a server INSTANCE value "SQLEXPRESS\x00" yields an
InstanceName of "SQLEXPRESS" (trailing NUL trimmed). -/
theorem mssql_instance_name_C7_witness :
    ({ preloginOptions :=
        some ⟨[(2, [83, 81, 76, 69, 88, 80, 82, 69, 83, 83, 0])]⟩ }
      : HandshakeOutcome).preloginOptions
      = some ⟨[(2, [83, 81, 76, 69, 88, 80, 82, 69, 83, 83, 0])]⟩
    ∧ ∃ r, (mssqlScanCore (some (Except.ok ()))
          { preloginOptions :=
              some ⟨[(2, [83, 81, 76, 69, 88, 80, 82, 69, 83, 83, 0])]⟩ }).1.result
        = some r
      ∧ (r.instanceName.isSome
          ↔ ((⟨[(2, [83, 81, 76, 69, 88, 80, 82, 69, 83, 83, 0])]⟩
              : PreloginOptions).find PreloginInstance).isSome)
      ∧ (∀ v, (⟨[(2, [83, 81, 76, 69, 88, 80, 82, 69, 83, 83, 0])]⟩
            : PreloginOptions).find PreloginInstance = some v →
          r.instanceName = some (trimCutset instanceCutset v)) :=
  ⟨rfl, mssql_instance_name_C7 _ _ rfl⟩

/-- C3: for every MSSQL scan whose handshake fails with one of the sentinel
errors, Scan returns the application-error status rather than a
network-failure status; and when the client requested ON and the server
reported NOT_SUPPORTED, the handshake surfaces `ErrNoServerEncryption` and
the attached result's EncryptMode is still populated from the server's
stated value. -/
theorem mssql_sentinel_application_error_C3 (h : HandshakeOutcome)
    (opts : PreloginOptions) (tlsOk : Bool)
    (he : h.handshakeErr = some ScanError.noServerEncryption
        ∨ h.handshakeErr = some ScanError.serverRequiresEncryption)
    (hsrv : decodeServerMode opts = EncryptMode.notSupported) :
    (mssqlScanCore (some (Except.ok ())) h).1.status
      = ScanStatus.SCAN_APPLICATION_ERROR
    ∧ (handshake EncryptMode.on (ServerResponse.options opts) tlsOk).1.handshakeErr
      = some ScanError.noServerEncryption
    ∧ ∃ r, (mssqlScanCore (some (Except.ok ()))
          (handshake EncryptMode.on (ServerResponse.options opts) tlsOk).1).1.result
        = some r
      ∧ r.encryptMode = some (decodeServerMode opts) := by
  have hout : (handshake EncryptMode.on (ServerResponse.options opts) tlsOk).1
      = { encryptMode := decodeServerMode opts,
          handshakeErr := some ScanError.noServerEncryption,
          tlsLog := none, preloginOptions := some opts,
          readValidTDSPacket := true } := by
    simp [handshake, hsrv]
  refine ⟨?_, ?_, ?_⟩
  · rcases he with he1 | he1 <;> simp [mssqlScanCore, he1]
  · rw [hout]
  · rw [hout]
    exact ⟨_, mssqlScanCore_result_of_prelogin _ opts rfl, by simp⟩

/-- Witness for C3: the server declares ENCRYPTION NOT_SUPPORTED while the
client requested ON; the scan classifies the sentinel as an application
error and the attached result's EncryptMode carries the server's value. -/
theorem mssql_sentinel_application_error_C3_witness :
    ((handshake EncryptMode.on (ServerResponse.options ⟨[(1, [2])]⟩) false).1.handshakeErr
        = some ScanError.noServerEncryption
      ∨ (handshake EncryptMode.on (ServerResponse.options ⟨[(1, [2])]⟩) false).1.handshakeErr
        = some ScanError.serverRequiresEncryption)
    ∧ decodeServerMode ⟨[(1, [2])]⟩ = EncryptMode.notSupported
    ∧ ((mssqlScanCore (some (Except.ok ()))
          (handshake EncryptMode.on (ServerResponse.options ⟨[(1, [2])]⟩) false).1).1.status
        = ScanStatus.SCAN_APPLICATION_ERROR
      ∧ (handshake EncryptMode.on (ServerResponse.options ⟨[(1, [2])]⟩) false).1.handshakeErr
        = some ScanError.noServerEncryption
      ∧ ∃ r, (mssqlScanCore (some (Except.ok ()))
            (handshake EncryptMode.on (ServerResponse.options ⟨[(1, [2])]⟩) false).1).1.result
          = some r
        ∧ r.encryptMode = some (decodeServerMode ⟨[(1, [2])]⟩)) :=
  ⟨Or.inl rfl, rfl,
    mssql_sentinel_application_error_C3
      (handshake EncryptMode.on (ServerResponse.options ⟨[(1, [2])]⟩) false).1
      ⟨[(1, [2])]⟩ false (Or.inl rfl) rfl⟩

/-- C5: for every MSSQL handshake in which the server's ENCRYPTION option
value is NOT_SUPPORTED, the TLS phase is skipped entirely: the handshake
completes right after the PRELOGIN response and its wire trace contains no
TLS send. -/
theorem mssql_not_supported_skips_tls_C5 (clientMode : EncryptMode)
    (opts : PreloginOptions) (tlsOk : Bool)
    (hsrv : decodeServerMode opts = EncryptMode.notSupported) :
    (handshake clientMode (ServerResponse.options opts) tlsOk).2
      = [HsPhase.sendPrelogin, HsPhase.readResponse]
    ∧ HsPhase.tlsSend ∉ (handshake clientMode (ServerResponse.options opts) tlsOk).2 := by
  have h2 : (handshake clientMode (ServerResponse.options opts) tlsOk).2
      = [HsPhase.sendPrelogin, HsPhase.readResponse] := by
    simp [handshake, hsrv]
  refine ⟨h2, ?_⟩
  rw [h2]
  decide

/-- Witness for C5: with the server declaring ENCRYPTION NOT_SUPPORTED, a
handshake with client mode OFF sends no TLS bytes. -/
theorem mssql_not_supported_skips_tls_C5_witness :
    decodeServerMode ⟨[(1, [2]), (0, [12, 0, 7, 208, 0, 0])]⟩
      = EncryptMode.notSupported
    ∧ ((handshake EncryptMode.off
          (ServerResponse.options ⟨[(1, [2]), (0, [12, 0, 7, 208, 0, 0])]⟩) true).2
        = [HsPhase.sendPrelogin, HsPhase.readResponse]
      ∧ HsPhase.tlsSend ∉ (handshake EncryptMode.off
          (ServerResponse.options ⟨[(1, [2]), (0, [12, 0, 7, 208, 0, 0])]⟩) true).2) :=
  ⟨rfl,
    mssql_not_supported_skips_tls_C5 EncryptMode.off
      ⟨[(1, [2]), (0, [12, 0, 7, 208, 0, 0])]⟩ true rfl⟩

/-- C4 counterexample: in an SMB scan whose first negotiation fails with a
nil log, the first connection is closed twice — once explicitly before the
redial and once by the deferred close at exit — so it is not released
exactly once on that exit path. -/
theorem smb_first_conn_closed_twice_C4_cex :
    smbCloseCount 0 (smbScan (SMBEnv.mk (fun k => Except.ok k)
        (fun i _ _ _ _ => if i = 0 then (none, some ScanError.protocolError)
          else (some {}, none))) false false).2 = 2
    ∧ smbCloseCount 0 (smbScan (SMBEnv.mk (fun k => Except.ok k)
        (fun i _ _ _ _ => if i = 0 then (none, some ScanError.protocolError)
          else (some {}, none))) false false).2 ≠ 1 := by
  constructor
  · rfl
  · decide

/-- C4 amended: every connection a scan opens is closed before the scan
returns on every exit path; the close is unique for the MSSQL and Telnet
scans and for the SMB scan's single-attempt paths, while in the SMB no-log
retry path the first connection is closed twice (explicit close before the
redial plus the deferred close at exit) and the retry connection exactly
once. -/
theorem scan_close_on_every_exit_C4 (env : SMBEnv) (ss vb : Bool) (c0 : Nat)
    (h : HandshakeOutcome) (stream : List Nat) (flags : TelnetFlags)
    (hd0 : env.dial 0 = Except.ok c0)
    (hfresh : ∀ c1, env.dial 1 = Except.ok c1 → c1 ≠ c0) :
    (mssqlScanCore (some (Except.ok ())) h).2
      = [MSSQLEvent.dialAttemptEv, MSSQLEvent.closeEv]
    ∧ (telnetScan (Except.ok ()) stream flags).2
      = [TelnetEvent.dialEv, TelnetEvent.closeEv]
    ∧ ((env.negotiate 0 c0 ss false vb).2 = none →
        smbCloseCount c0 (smbScan env ss vb).2 = 1)
    ∧ (∀ r e, env.negotiate 0 c0 ss false vb = (some r, some e) →
        smbCloseCount c0 (smbScan env ss vb).2 = 1)
    ∧ (∀ e, env.negotiate 0 c0 ss false vb = (none, some e) →
        smbCloseCount c0 (smbScan env ss vb).2 = 2
        ∧ ∀ c1, env.dial 1 = Except.ok c1 →
            smbCloseCount c1 (smbScan env ss vb).2 = 1) := by
  refine ⟨?_, ?_, ?_, ?_, ?_⟩
  · rcases he : h.handshakeErr with _ | e
    · simp [mssqlScanCore, he]
    · cases e <;> simp [mssqlScanCore, he]
  · rcases hbr : getTelnetBanner stream flags.maxReadSize with ⟨log, oe⟩
    rcases oe with _ | e
    · simp [telnetScan, hbr]
    · by_cases hcond : flags.banner ∧ 0 < log.banner.length <;>
        simp [telnetScan, hbr, hcond]
  · intro hnone
    rcases hn : env.negotiate 0 c0 ss false vb with ⟨r, oe⟩
    rw [hn] at hnone
    cases hnone
    simp [smbScan, hd0, hn, smbCloseCount]
  · intro r e hn
    simp [smbScan, hd0, hn, smbCloseCount]
  · intro e hn
    rcases hd1 : env.dial 1 with e2 | c1
    · refine ⟨by simp [smbScan, hd0, hn, hd1, smbCloseCount], ?_⟩
      intro c1 hc1
      cases hc1
    · have hne : c1 ≠ c0 := hfresh c1 hd1
      rcases hn1 : env.negotiate 1 c1 ss true vb with ⟨r2, oe2⟩
      constructor
      · cases oe2 <;>
          simp [smbScan, hd0, hn, hd1, hn1, smbCloseCount, hne]
      · intro c1x hc1x
        cases hc1x
        cases oe2 <;>
          simp [smbScan, hd0, hn, hd1, hn1, smbCloseCount, Ne.symm hne]

/-- Witness for the amended C4: in a successful single-attempt SMB scan on
a concrete environment, the opened connection is closed exactly once. -/
theorem scan_close_on_every_exit_C4_witness :
    (SMBEnv.mk (fun k => Except.ok k) (fun _ _ _ _ _ => (some {}, none))).dial 0
      = Except.ok 0
    ∧ (∀ c1, (SMBEnv.mk (fun k => Except.ok k)
        (fun _ _ _ _ _ => (some {}, none))).dial 1 = Except.ok c1 → c1 ≠ 0)
    ∧ ((SMBEnv.mk (fun k => Except.ok k)
        (fun _ _ _ _ _ => (some {}, none))).negotiate 0 0 false false false).2 = none
    ∧ smbCloseCount 0 (smbScan (SMBEnv.mk (fun k => Except.ok k)
        (fun _ _ _ _ _ => (some {}, none))) false false).2 = 1 :=
  ⟨rfl, fun c1 hc1 => by simp at hc1; omega, rfl,
    (scan_close_on_every_exit_C4 (SMBEnv.mk (fun k => Except.ok k)
        (fun _ _ _ _ _ => (some {}, none))) false false 0 {} [] {} rfl
        (fun c1 hc1 => by simp at hc1; omega)).2.2.1 rfl⟩
